import Mathlib

/-!
A shallow embedding, in Lean 4, of the stateful core of the `better-riaz`
habit monitor (files `src/lib/stats.py`, `src/lib/audio.py`,
`src/lib/display.py`, `src/lib/monitor.py`, `src/lib/models.py`,
`src/lib/utils.py`), together with theorems settling the behavioural
claims made about it.

Modelling conventions:
* `datetime` instants and `timedelta` durations become rationals (`ℚ`);
  `datetime.now()` / `time.time()` become explicit `now : ℚ` arguments.
* Python objects become structures; mutation becomes state-passing.
* Python `/`, which raises `ZeroDivisionError` on a zero denominator, is
  modelled by `pyDiv`, which returns `none` exactly there; functions whose
  body contains a raw `/` are therefore `Option`-valued.
* I/O (logging, JSON file reads/writes, sound playback, threads) has no
  in-memory effect on the modelled fields and is dropped, except where a
  claim is about it: sound playback success and thread spawning are made
  explicit parameters/counters.
-/

/-- One entry of `StatsTracker.habit_sessions` (`stats.py`, lines 89-93):
a closed habit session with its start, end and duration. -/
structure HabitSession where
  start_time : ℚ
  end_time : ℚ
  duration : ℚ
deriving Repr, DecidableEq

/-- One entry of `StatsTracker.detection_history` (`stats.py`, lines 53-58). -/
structure DetectionEvent where
  timestamp : ℚ
  detected : Bool
  confidence : ℚ
  cls : String
deriving Repr, DecidableEq

/-- The mutable fields of `StatsTracker` (`stats.py`, lines 14-31).
`stats_file` and the logger carry no in-memory state and are dropped. -/
structure StatsState where
  session_start_time : Option ℚ
  habit_start_time : Option ℚ
  total_habit_time : ℚ
  current_habit_duration : ℚ
  is_habit_active : Bool
  total_detections : ℕ
  habit_sessions : List HabitSession
  detection_history : List DetectionEvent
deriving Repr, DecidableEq

/-- A fresh `StatsTracker` when `_load_statistics` finds no statistics
file (`stats.py` `__init__`, lines 14-31, with the `FileNotFoundError`
branch of lines 249-250). -/
def initStats : StatsState where
  session_start_time := none
  habit_start_time := none
  total_habit_time := 0
  current_habit_duration := 0
  is_habit_active := false
  total_detections := 0
  habit_sessions := []
  detection_history := []

/-- Model of `StatsTracker.start_session` (`stats.py`, lines 33-36). -/
def start_session (st : StatsState) (now : ℚ) : StatsState :=
  { st with session_start_time := some now }

/-- Model of `StatsTracker._start_habit_session` (`stats.py`, lines 72-78). -/
def start_habit_session (st : StatsState) (timestamp : ℚ) : StatsState :=
  { st with
    habit_start_time := some timestamp
    is_habit_active := true
    total_detections := st.total_detections + 1 }

/-- Model of `StatsTracker._end_habit_session` (`stats.py`, lines 80-103).
`timestamp = none` models the Python default `timestamp=None`, in which
case `end_time = datetime.now()`, modelled by the `now` argument. -/
def end_habit_session (st : StatsState) (timestamp : Option ℚ) (now : ℚ) :
    StatsState :=
  match st.is_habit_active, st.habit_start_time with
  | true, some hs =>
      let end_time := timestamp.getD now
      let session_duration := end_time - hs
      { st with
        habit_sessions :=
          st.habit_sessions ++ [⟨hs, end_time, session_duration⟩]
        total_habit_time := st.total_habit_time + session_duration
        is_habit_active := false
        current_habit_duration := 0
        habit_start_time := none }
  | _, _ => st

/-- Model of `StatsTracker._update_current_habit_duration` (`stats.py`,
lines 105-108). -/
def update_current_habit_duration (st : StatsState) (timestamp : ℚ) :
    StatsState :=
  match st.habit_start_time with
  | some hs => { st with current_habit_duration := timestamp - hs }
  | none => st

/-- Model of `StatsTracker.update_habit_detection` (`stats.py`, lines 48-70),
with `datetime.now()` as the explicit argument `now`. -/
def update_habit_detection (st : StatsState) (detected : Bool)
    (confidence : ℚ) (habit_cls : String) (now : ℚ) : StatsState :=
  let st1 := { st with
    detection_history :=
      st.detection_history ++ [DetectionEvent.mk now detected confidence habit_cls] }
  match detected, st1.is_habit_active with
  | true, false => start_habit_session st1 now
  | false, true => end_habit_session st1 (some now) now
  | true, true => update_current_habit_duration st1 now
  | false, false => st1

/-- Model of `StatsTracker.end_session` (`stats.py`, lines 38-46); the
`_save_statistics` call writes a file and changes no in-memory field. -/
def end_session (st : StatsState) (now : ℚ) : StatsState :=
  if st.is_habit_active then end_habit_session st none now else st

/-- Model of `StatsTracker.reset_statistics` (`stats.py`, lines 254-265). -/
def reset_statistics (_st : StatsState) : StatsState :=
  { session_start_time := none
    habit_start_time := none
    total_habit_time := 0
    current_habit_duration := 0
    is_habit_active := false
    total_detections := 0
    habit_sessions := []
    detection_history := [] }

/-- The states of `StatsTracker` reachable from a fresh tracker by the
public operations `start_session`, `update_habit_detection`,
`end_session` and `reset_statistics`. -/
inductive ReachableStats : StatsState → Prop
  | init : ReachableStats initStats
  | start (st : StatsState) (t : ℚ) :
      ReachableStats st → ReachableStats (start_session st t)
  | update (st : StatsState) (d : Bool) (c : ℚ) (cls : String) (t : ℚ) :
      ReachableStats st → ReachableStats (update_habit_detection st d c cls t)
  | finish (st : StatsState) (t : ℚ) :
      ReachableStats st → ReachableStats (end_session st t)
  | reset (st : StatsState) :
      ReachableStats st → ReachableStats (reset_statistics st)

/-- The conjunction of the bookkeeping invariants maintained by
`StatsTracker`: the active flag mirrors the presence of an open session,
the live duration is zero while inactive, and the accumulated habit time
is the sum of the closed sessions' durations. -/
def StatsInv (st : StatsState) : Prop :=
  st.is_habit_active = st.habit_start_time.isSome ∧
  (st.is_habit_active = false → st.current_habit_duration = 0) ∧
  st.total_habit_time = (st.habit_sessions.map HabitSession.duration).sum

lemma statsInv_init : StatsInv initStats := by
  refine ⟨rfl, fun _ => rfl, rfl⟩

lemma statsInv_start_session {st : StatsState} (h : StatsInv st) (t : ℚ) :
    StatsInv (start_session st t) := by
  obtain ⟨h1, h2, h3⟩ := h
  exact ⟨h1, h2, h3⟩

lemma statsInv_end_habit_session {st : StatsState} (h : StatsInv st)
    (timestamp : Option ℚ) (now : ℚ) :
    StatsInv (end_habit_session st timestamp now) := by
  obtain ⟨h1, h2, h3⟩ := h
  unfold end_habit_session
  split
  · refine ⟨rfl, fun _ => rfl, ?_⟩
    simp [h3]
  · exact ⟨h1, h2, h3⟩

lemma statsInv_start_habit_session {st : StatsState} (h : StatsInv st)
    (t : ℚ) : StatsInv (start_habit_session st t) := by
  obtain ⟨h1, h2, h3⟩ := h
  exact ⟨rfl, by simp [start_habit_session], h3⟩

lemma statsInv_update_current {st : StatsState} (h : StatsInv st)
    (hact : st.is_habit_active = true) (t : ℚ) :
    StatsInv (update_current_habit_duration st t) := by
  obtain ⟨h1, h2, h3⟩ := h
  unfold update_current_habit_duration
  cases hstart : st.habit_start_time
  · exact ⟨h1, h2, h3⟩
  · exact ⟨by simpa [hstart] using h1, by simp [hact], h3⟩

lemma statsInv_update_habit_detection {st : StatsState} (h : StatsInv st)
    (d : Bool) (c : ℚ) (cls : String) (t : ℚ) :
    StatsInv (update_habit_detection st d c cls t) := by
  obtain ⟨h1, h2, h3⟩ := h
  have hhist : StatsInv { st with
      detection_history := st.detection_history ++ [DetectionEvent.mk t d c cls] } :=
    ⟨h1, h2, h3⟩
  unfold update_habit_detection
  cases d <;> cases hact : st.is_habit_active <;>
    simp only [hact] at hhist ⊢
  · exact hhist
  · exact statsInv_end_habit_session hhist (some t) t
  · exact statsInv_start_habit_session hhist t
  · exact statsInv_update_current hhist rfl t

lemma statsInv_end_session {st : StatsState} (h : StatsInv st) (t : ℚ) :
    StatsInv (end_session st t) := by
  unfold end_session
  split
  · exact statsInv_end_habit_session h none t
  · exact h

lemma statsInv_reset (st : StatsState) : StatsInv (reset_statistics st) := by
  refine ⟨rfl, fun _ => rfl, rfl⟩

lemma statsInv_of_reachable {st : StatsState} (h : ReachableStats st) :
    StatsInv st := by
  induction h with
  | init => exact statsInv_init
  | start st t _ ih => exact statsInv_start_session ih t
  | update st d c cls t _ ih => exact statsInv_update_habit_detection ih d c cls t
  | finish st t _ ih => exact statsInv_end_session ih t
  | reset st _ _ => exact statsInv_reset st

/-- Helper for C1, taken from the spec sentence: folds the detection calls
`update_habit_detection(detected, t)` (with the Python defaults
`confidence=0.0`, `habit_class="unknown"`) over a tracker state, one per
`(detected, t)` pair. -/
def applyDetections (st : StatsState) (events : List (Bool × ℚ)) : StatsState :=
  events.foldl (fun s e => update_habit_detection s e.1 0 "unknown" e.2) st

/-- Spec-side count of `false→true` transitions in a detected-sequence,
`prev` being the value preceding the list (a leading `true` counts as one
transition when `prev = false`). -/
def countTransitions : Bool → List (Bool × ℚ) → ℕ
  | _, [] => 0
  | prev, (d, _) :: rest =>
      (if d = true ∧ prev = false then 1 else 0) + countTransitions d rest

/-- Spec-side extraction of the maximal runs of `detected = true` from a
timestamped sequence, as `(start, end)` pairs: a run starts at the
timestamp of its first `true`, ends at the timestamp of the next `false`,
and a run still open at the end of the sequence ends at `tEnd` (the
`end_session` time).  `o` carries the start of a run open on entry. -/
def maximalTrueRuns (tEnd : ℚ) : List (Bool × ℚ) → Option ℚ → List (ℚ × ℚ)
  | [], none => []
  | [], some s => [(s, tEnd)]
  | (d, t) :: rest, none =>
      if d then maximalTrueRuns tEnd rest (some t)
      else maximalTrueRuns tEnd rest none
  | (d, t) :: rest, some s =>
      if d then maximalTrueRuns tEnd rest (some s)
      else (s, t) :: maximalTrueRuns tEnd rest none

/-- Spec-side total habit time: the sum of `end - start` over all maximal
`true`-runs. -/
def runsTotalTime (tEnd : ℚ) (events : List (Bool × ℚ)) : ℚ :=
  ((maximalTrueRuns tEnd events none).map (fun p => p.2 - p.1)).sum

lemma end_session_total_detections (st : StatsState) (t : ℚ) :
    (end_session st t).total_detections = st.total_detections := by
  unfold end_session
  split
  · unfold end_habit_session
    split <;> rfl
  · rfl

lemma session_accounting_aux (tEnd : ℚ) (events : List (Bool × ℚ)) :
    ∀ (st : StatsState) (o : Option ℚ),
    st.is_habit_active = o.isSome → st.habit_start_time = o →
    (end_session (applyDetections st events) tEnd).total_habit_time
        = st.total_habit_time
          + ((maximalTrueRuns tEnd events o).map (fun p => p.2 - p.1)).sum
      ∧ (applyDetections st events).total_detections
        = st.total_detections + countTransitions o.isSome events := by
  induction events with
  | nil =>
      intro st o hact hstart
      cases o with
      | none =>
          refine ⟨?_, ?_⟩
          · simp [applyDetections, end_session, hact, maximalTrueRuns]
          · simp [applyDetections, countTransitions]
      | some s =>
          refine ⟨?_, ?_⟩
          · simp only [applyDetections, List.foldl_nil, end_session, hact,
              if_true, end_habit_session]
            rw [hstart]
            simp [maximalTrueRuns]
          · simp [applyDetections, countTransitions]
  | cons e rest ih =>
      obtain ⟨d, t⟩ := e
      intro st o hact hstart
      simp only [applyDetections, List.foldl_cons] at *
      cases d with
      | true =>
          cases o with
          | none =>
              simp only [Option.isSome_none] at hact
              have hred : update_habit_detection st true 0 "unknown" t
                  = start_habit_session { st with detection_history :=
                      st.detection_history
                        ++ [DetectionEvent.mk t true 0 "unknown"] } t := by
                unfold update_habit_detection
                simp [hact]
              rw [hred]
              obtain ⟨ih1, ih2⟩ := ih (start_habit_session { st with
                  detection_history := st.detection_history
                    ++ [DetectionEvent.mk t true 0 "unknown"] } t)
                (some t) rfl rfl
              refine ⟨?_, ?_⟩
              · rw [ih1]
                simp [start_habit_session, maximalTrueRuns]
              · rw [ih2]
                simp only [start_habit_session, maximalTrueRuns,
                  countTransitions, Option.isSome_some, Option.isSome_none]
                simp
                omega
          | some s =>
              simp only [Option.isSome_some] at hact
              have hred : update_habit_detection st true 0 "unknown" t
                  = update_current_habit_duration { st with detection_history :=
                      st.detection_history
                        ++ [DetectionEvent.mk t true 0 "unknown"] } t := by
                unfold update_habit_detection
                simp [hact]
              have hcur : update_current_habit_duration { st with
                  detection_history := st.detection_history
                    ++ [DetectionEvent.mk t true 0 "unknown"] } t
                  = { st with
                      detection_history := st.detection_history
                        ++ [DetectionEvent.mk t true 0 "unknown"],
                      current_habit_duration := t - s } := by
                unfold update_current_habit_duration
                rw [show ({ st with detection_history := st.detection_history
                    ++ [DetectionEvent.mk t true 0 "unknown"] }
                      : StatsState).habit_start_time = some s from hstart]
              rw [hred, hcur]
              obtain ⟨ih1, ih2⟩ := ih { st with
                  detection_history := st.detection_history
                    ++ [DetectionEvent.mk t true 0 "unknown"],
                  current_habit_duration := t - s } (some s) hact hstart
              refine ⟨?_, ?_⟩
              · rw [ih1]
                simp [maximalTrueRuns]
              · rw [ih2]
                simp [countTransitions]
      | false =>
          cases o with
          | none =>
              simp only [Option.isSome_none] at hact
              have hred : update_habit_detection st false 0 "unknown" t
                  = { st with detection_history := st.detection_history
                      ++ [DetectionEvent.mk t false 0 "unknown"] } := by
                unfold update_habit_detection
                simp [hact]
              rw [hred]
              obtain ⟨ih1, ih2⟩ := ih { st with
                  detection_history := st.detection_history
                    ++ [DetectionEvent.mk t false 0 "unknown"] } none hact hstart
              refine ⟨?_, ?_⟩
              · rw [ih1]
                simp [maximalTrueRuns]
              · rw [ih2]
                simp [countTransitions]
          | some s =>
              simp only [Option.isSome_some] at hact
              have hred : update_habit_detection st false 0 "unknown" t
                  = end_habit_session { st with detection_history :=
                      st.detection_history
                        ++ [DetectionEvent.mk t false 0 "unknown"] } (some t) t := by
                unfold update_habit_detection
                simp [hact]
              have hend : end_habit_session { st with detection_history :=
                  st.detection_history
                    ++ [DetectionEvent.mk t false 0 "unknown"] } (some t) t
                  = { st with
                      detection_history := st.detection_history
                        ++ [DetectionEvent.mk t false 0 "unknown"],
                      habit_sessions := st.habit_sessions ++ [⟨s, t, t - s⟩],
                      total_habit_time := st.total_habit_time + (t - s),
                      is_habit_active := false,
                      current_habit_duration := 0,
                      habit_start_time := none } := by
                unfold end_habit_session
                rw [show ({ st with detection_history := st.detection_history
                    ++ [DetectionEvent.mk t false 0 "unknown"] }
                      : StatsState).habit_start_time = some s from hstart]
                simp [hact]
              rw [hred, hend]
              obtain ⟨ih1, ih2⟩ := ih { st with
                  detection_history := st.detection_history
                    ++ [DetectionEvent.mk t false 0 "unknown"],
                  habit_sessions := st.habit_sessions ++ [⟨s, t, t - s⟩],
                  total_habit_time := st.total_habit_time + (t - s),
                  is_habit_active := false,
                  current_habit_duration := 0,
                  habit_start_time := none } none rfl rfl
              refine ⟨?_, ?_⟩
              · rw [ih1]
                simp [maximalTrueRuns]
                ring
              · rw [ih2]
                simp [countTransitions]

/-- C1: for every finite sequence of `update_habit_detection` calls with
boolean detected values at strictly increasing timestamps, starting from a
fresh tracker with `start_session` called and followed by `end_session`,
`total_habit_time` equals the sum of `(end - start)` over all maximal
`detected = true` runs and `total_detections` equals the number of
`false→true` transitions (a leading `true` counting as one). -/
theorem C1_session_accounting (events : List (Bool × ℚ)) (t0 tEnd : ℚ)
    (_hinc : List.Chain' (fun a b => a < b) (events.map Prod.snd)) :
    (end_session (applyDetections (start_session initStats t0) events)
        tEnd).total_habit_time
      = runsTotalTime tEnd events
    ∧ (end_session (applyDetections (start_session initStats t0) events)
        tEnd).total_detections
      = countTransitions false events := by
  obtain ⟨h1, h2⟩ :=
    session_accounting_aux tEnd events (start_session initStats t0) none rfl rfl
  refine ⟨?_, ?_⟩
  · rw [h1]
    simp [start_session, initStats, runsTotalTime]
  · rw [end_session_total_detections, h2]
    simp [start_session, initStats]

/-- Witness for C1 at the spec's own example: detected values
`[F, T, T, F, T]` at `t = 1..5`, session started at `t = 0` and ended at
`t = 6`, so the maximal true-runs are `(2, 4)` and `(5, 6)`. -/
theorem C1_witness :
    (end_session (applyDetections (start_session initStats 0)
        [(false, 1), (true, 2), (true, 3), (false, 4), (true, 5)])
        6).total_habit_time
      = runsTotalTime 6 [(false, 1), (true, 2), (true, 3), (false, 4), (true, 5)]
    ∧ (end_session (applyDetections (start_session initStats 0)
        [(false, 1), (true, 2), (true, 3), (false, 4), (true, 5)])
        6).total_detections
      = countTransitions false
          [(false, 1), (true, 2), (true, 3), (false, 4), (true, 5)] :=
  C1_session_accounting
    [(false, 1), (true, 2), (true, 3), (false, 4), (true, 5)] 0 6
    (by norm_num [List.chain'_cons])

/-- C5: in every reachable `StatsTracker` state, `is_habit_active` holds
exactly when an open habit session exists (`habit_start_time` is set), and
`current_habit_duration` is zero whenever `is_habit_active` is false.
Reachability here even includes `reset_statistics`, a superset of the
sequences named by the claim. -/
theorem C5_active_iff_open_session (st : StatsState)
    (h : ReachableStats st) :
    (st.is_habit_active = true ↔ st.habit_start_time ≠ none)
    ∧ (st.is_habit_active = false → st.current_habit_duration = 0) := by
  obtain ⟨h1, h2, _⟩ := statsInv_of_reachable h
  refine ⟨?_, h2⟩
  rw [h1]
  exact Option.isSome_iff_ne_none

/-- Witness for C5 at the fresh tracker state. -/
theorem C5_witness :
    ((initStats.is_habit_active = true ↔ initStats.habit_start_time ≠ none)
    ∧ (initStats.is_habit_active = false →
        initStats.current_habit_duration = 0)) :=
  C5_active_iff_open_session initStats ReachableStats.init

/-- C10: in every state reachable from a fresh tracker by `start_session`,
`update_habit_detection`, `end_session` and `reset_statistics`,
`total_habit_time` equals the sum of the `duration` fields of the closed
sessions in `habit_sessions`; an open session contributes nothing until it
closes. -/
theorem C10_total_time_is_session_sum (st : StatsState)
    (h : ReachableStats st) :
    st.total_habit_time = (st.habit_sessions.map HabitSession.duration).sum :=
  (statsInv_of_reachable h).2.2

/-- Witness for C10 at the fresh tracker state. -/
theorem C10_witness :
    initStats.total_habit_time
      = (initStats.habit_sessions.map HabitSession.duration).sum :=
  C10_total_time_is_session_sum initStats ReachableStats.init

/-- Python's `/` operator, which raises `ZeroDivisionError` on a zero
denominator: `none` models the raised exception. -/
def pyDiv (n d : ℚ) : Option ℚ :=
  if d = 0 then none else some (n / d)

/-- Model of `safe_divide` (`utils.py`, lines 99-103): returns `0` when
the denominator is zero, otherwise divides (the raw `/` only runs with a
nonzero denominator). -/
def safe_divide (n d : ℚ) : Option ℚ :=
  if d = 0 then some 0 else pyDiv n d

/-- Model of `StatsTracker.get_session_duration` (`stats.py`,
lines 110-114). -/
def get_session_duration (st : StatsState) (now : ℚ) : ℚ :=
  match st.session_start_time with
  | none => 0
  | some s => now - s

/-- Model of `StatsTracker.get_habit_percentage` (`stats.py`,
lines 116-128). -/
def get_habit_percentage (st : StatsState) (now : ℚ) : Option ℚ :=
  let session_duration := get_session_duration st now
  if session_duration = 0 then some 0
  else
    (safe_divide (st.total_habit_time + st.current_habit_duration)
      session_duration).map (· * 100)

/-- Model of `StatsTracker.get_average_session_duration` (`stats.py`,
lines 130-140): the raw `/` by the session count runs only on a nonempty
list. -/
def get_average_session_duration (st : StatsState) : Option ℚ :=
  if st.habit_sessions = [] then some 0
  else pyDiv ((st.habit_sessions.map HabitSession.duration).sum)
    (st.habit_sessions.length)

/-- Model of `StatsTracker.get_detection_rate` (`stats.py`,
lines 142-149). -/
def get_detection_rate (st : StatsState) (now : ℚ) : Option ℚ :=
  let session_duration := get_session_duration st now
  if session_duration = 0 then some 0
  else
    (pyDiv session_duration 60).bind fun minutes =>
      safe_divide (st.total_detections : ℚ) minutes

/-- C6: `get_habit_percentage`, `get_detection_rate` and
`get_average_session_duration` each return a defined zero value instead of
faulting (`none` would be a raised `ZeroDivisionError`) whenever their
denominator is zero: a zero session duration (in particular no session
started) for the first two, an empty `habit_sessions` for the third. -/
theorem C6_zero_denominator_safety (st : StatsState) (now : ℚ) :
    (get_session_duration st now = 0 →
        get_habit_percentage st now = some 0
        ∧ get_detection_rate st now = some 0)
    ∧ (st.habit_sessions = [] → get_average_session_duration st = some 0) := by
  refine ⟨fun h => ⟨?_, ?_⟩, fun h => ?_⟩
  · simp [get_habit_percentage, h]
  · simp [get_detection_rate, h]
  · simp [get_average_session_duration, h]

/-- Witness for C6 at the fresh tracker state (no session started, no
closed sessions) observed at time `0`. -/
theorem C6_witness :
    (get_habit_percentage initStats 0 = some 0
      ∧ get_detection_rate initStats 0 = some 0)
    ∧ get_average_session_duration initStats = some 0 :=
  ⟨(C6_zero_denominator_safety initStats 0).1 rfl,
   (C6_zero_denominator_safety initStats 0).2 rfl⟩

/-- One entry of the `habit_sessions` array in the persisted JSON record
(`stats.py`, lines 188-195); `isoformat`/`fromisoformat` preserve the
instant exactly (microsecond precision), so instants stay rationals. -/
structure SavedSession where
  start_time : ℚ
  end_time : ℚ
  duration_seconds : ℚ
deriving Repr, DecidableEq

/-- One entry of the `detection_history` array in the persisted JSON
record (`stats.py`, lines 196-204). -/
structure SavedEvent where
  timestamp : ℚ
  detected : Bool
  confidence : ℚ
  cls : String
deriving Repr, DecidableEq

/-- The persisted JSON record written by `_save_statistics` (`stats.py`,
lines 184-205). -/
structure SavedData where
  session_start_time : Option ℚ
  total_detections : ℕ
  total_habit_time_seconds : ℚ
  habit_sessions : List SavedSession
  detection_history : List SavedEvent
deriving Repr, DecidableEq

/-- Model of `StatsTracker._save_statistics` (`stats.py`, lines 181-213):
`total_seconds()` on a rational duration and `isoformat()` on a rational
instant are identities in this model. -/
def save_statistics (st : StatsState) : SavedData where
  session_start_time := st.session_start_time
  total_detections := st.total_detections
  total_habit_time_seconds := st.total_habit_time
  habit_sessions :=
    st.habit_sessions.map fun s => ⟨s.start_time, s.end_time, s.duration⟩
  detection_history :=
    st.detection_history.map fun e => ⟨e.timestamp, e.detected, e.confidence, e.cls⟩

/-- Model of `StatsTracker._load_statistics` (`stats.py`, lines 215-252)
applied to a successfully parsed record: starting from the fresh field
values of `__init__`, it restores the session start, the counters and the
session/history lists. -/
def load_statistics (data : SavedData) : StatsState where
  session_start_time := data.session_start_time
  habit_start_time := none
  total_habit_time := data.total_habit_time_seconds
  current_habit_duration := 0
  is_habit_active := false
  total_detections := data.total_detections
  habit_sessions :=
    data.habit_sessions.map fun s => ⟨s.start_time, s.end_time, s.duration_seconds⟩
  detection_history :=
    data.detection_history.map fun e => ⟨e.timestamp, e.detected, e.confidence, e.cls⟩

/-- C7: serializing any `StatsTracker` state with `_save_statistics` and
reloading the record with `_load_statistics` reproduces the same
`total_detections`, the same `total_habit_time` (exactly, in the rational
model of seconds), and the same session start and end timestamps in the
same chronological (list) order; in particular this holds for a state
with exactly 2 closed sessions. -/
theorem C7_round_trip_persistence (st : StatsState) :
    (load_statistics (save_statistics st)).total_detections
        = st.total_detections
    ∧ (load_statistics (save_statistics st)).total_habit_time
        = st.total_habit_time
    ∧ (load_statistics (save_statistics st)).habit_sessions.map
          (fun s => (s.start_time, s.end_time))
        = st.habit_sessions.map (fun s => (s.start_time, s.end_time)) := by
  refine ⟨rfl, rfl, ?_⟩
  simp only [load_statistics, save_statistics, List.map_map]
  rfl

/-- The mutable fields of `AudioManager` (`audio.py`, lines 15-20):
`last_warning_time` starts at `0`, the lock and logger carry no modelled
state. -/
structure AudioState where
  enabled : Bool
  cooldown_seconds : ℚ
  last_warning_time : ℚ
deriving Repr, DecidableEq

/-- Model of `AudioManager.__init__` (`audio.py`, lines 15-20). -/
def audioInit (enabled : Bool) (cooldown_seconds : ℚ) : AudioState :=
  ⟨enabled, cooldown_seconds, 0⟩

/-- Model of `AudioManager.play_warning` (`audio.py`, lines 22-40) at time
`now` (`time.time()`): returns whether the warning sound was played.
`soundOk` models `_play_sound` succeeding; when it raises, the exception
is caught (lines 39-40) and `last_warning_time` is left unchanged. -/
def play_warning (st : AudioState) (now : ℚ) (soundOk : Bool) :
    Bool × AudioState :=
  if st.enabled = false then (false, st)
  else if now - st.last_warning_time < st.cooldown_seconds then (false, st)
  else if soundOk then (true, { st with last_warning_time := now })
  else (false, st)

/-- A sequence of `play_warning` calls with a working sound sink,
returning the list of fired/not-fired outcomes. -/
def play_warning_seq (st : AudioState) (ts : List ℚ) :
    List Bool × AudioState :=
  match ts with
  | [] => ([], st)
  | t :: rest =>
      let p := play_warning st t true
      let q := play_warning_seq p.2 rest
      (p.1 :: q.1, q.2)

lemma play_warning_eq (st : AudioState) (now : ℚ) :
    play_warning st now true
      = if st.enabled = true
            ∧ st.cooldown_seconds ≤ now - st.last_warning_time
        then (true, { st with last_warning_time := now })
        else (false, st) := by
  unfold play_warning
  rcases he : st.enabled with _ | _
  · simp [he]
  · rcases lt_or_le (now - st.last_warning_time) st.cooldown_seconds with hlt | hge
    · simp [hlt, not_le.mpr hlt]
    · simp [not_lt.mpr hge, hge]

/-- C2 counterexample: with `cooldown = 5` and a gate that has never fired
(so `last_warning_time = 0`, its `__init__` value), calls at
`t = 0, 2, 4, 6` fire at `t = 6` only — the call at `t = 0` does not fire
because `0 - 0 < 5` — refuting the claimed pattern
`[true, false, false, true]`. -/
theorem C2_counterexample :
    (play_warning_seq (audioInit true 5) [0, 2, 4, 6]).1
        = [false, false, false, true]
    ∧ [false, false, false, true] ≠ [true, false, false, true] := by
  constructor
  · have h0 : ¬((5 : ℚ) ≤ 0) := by norm_num
    have h2 : ¬((5 : ℚ) ≤ 2) := by norm_num
    have h4 : ¬((5 : ℚ) ≤ 4) := by norm_num
    have h6 : (5 : ℚ) ≤ 6 := by norm_num
    simp [play_warning_seq, play_warning_eq, audioInit, h0, h2, h4, h6]
  · decide

/-- C2 (amended): a `play_warning` call at time `now` with a working sound
sink fires — and sets `last_warning_time := now` — exactly when the
manager is enabled and `now - last_warning_time ≥ cooldown_seconds`, where
`last_warning_time` is `0` until the first fire; otherwise the state is
unchanged.  Consequently, with `cooldown = 5`, a fresh gate called at
`T0, T0+2, T0+4, T0+6` fires at `T0` and `T0+6` only, for every `T0 ≥ 5`
(in particular for real epoch timestamps). -/
theorem C2_cooldown_gate (st : AudioState) (now : ℚ) :
    ((play_warning st now true).1 = true
        ↔ st.enabled = true
          ∧ st.cooldown_seconds ≤ now - st.last_warning_time)
    ∧ ((play_warning st now true).1 = true →
        (play_warning st now true).2 = { st with last_warning_time := now })
    ∧ ((play_warning st now true).1 = false →
        (play_warning st now true).2 = st)
    ∧ (∀ T0 : ℚ, 5 ≤ T0 →
        (play_warning_seq (audioInit true 5)
            [T0, T0 + 2, T0 + 4, T0 + 6]).1
          = [true, false, false, true]) := by
  refine ⟨?_, ?_, ?_, ?_⟩
  · rw [play_warning_eq]
    split
    · next hcond => simp [hcond]
    · next hcond => simp [hcond]
  · rw [play_warning_eq]
    split
    · intro _
      rfl
    · intro hfire
      simp at hfire
  · rw [play_warning_eq]
    split
    · intro hskip
      simp at hskip
    · intro _
      rfl
  · intro T0 hT0
    have h2 : ¬((5 : ℚ) ≤ 2) := by norm_num
    have h4 : ¬((5 : ℚ) ≤ 4) := by norm_num
    have h6 : (5 : ℚ) ≤ 6 := by norm_num
    simp [play_warning_seq, play_warning_eq, audioInit, hT0, h2, h4, h6]

/-- Witness for C2 at `T0 = 5`: the four calls at `t = 5, 7, 9, 11` fire
at `5` and `11` only. -/
theorem C2_witness :
    (play_warning_seq (audioInit true 5)
        [(5 : ℚ), 5 + 2, 5 + 4, 5 + 6]).1 = [true, false, false, true] :=
  (C2_cooldown_gate (audioInit true 5) 0).2.2.2 5 (by norm_num)

/-- Model of `AudioManager.test_audio` (`audio.py`, lines 114-130):
`soundOk` models `_play_sound` succeeding inside `play_warning`;
`raises` models an exception escaping the `try` body (caught at
lines 126-128, returning `False`); the `finally` block (lines 129-130)
restores `cooldown_seconds` on both exit paths. -/
def test_audio (st : AudioState) (now : ℚ) (soundOk raises : Bool) :
    Bool × AudioState :=
  let original_cooldown := st.cooldown_seconds
  let st1 : AudioState := { st with cooldown_seconds := 0 }
  let p := play_warning st1 now soundOk
  if raises then (false, { p.2 with cooldown_seconds := original_cooldown })
  else (true, { p.2 with cooldown_seconds := original_cooldown })

/-- C8: after `test_audio` returns — on every exit path, including the one
where playing the warning raises — `cooldown_seconds` equals its value
from before the call; the temporary `cooldown_seconds := 0` override is
never observable afterwards. -/
theorem C8_test_audio_restores_cooldown (st : AudioState) (now : ℚ)
    (soundOk raises : Bool) :
    ((test_audio st now soundOk raises).2).cooldown_seconds
      = st.cooldown_seconds := by
  unfold test_audio
  cases raises <;> rfl

/-- The mutable fields of `DisplayManager` (`display.py`, lines 15-25).
`threads_spawned` counts the `threading.Thread(...).start()` calls made so
far and gives each spawned render loop an identity; `display_thread`
holds the most recently spawned loop, as in the source. -/
structure DisplayState where
  refresh_rate : ℚ
  show_header : Bool
  running : Bool
  display_thread : Option ℕ
  threads_spawned : ℕ
  last_detection_cls : Option String
  last_confidence : ℚ
deriving Repr, DecidableEq

/-- Model of `DisplayManager.start_display` (`display.py`, lines 31-41):
returns immediately when already running, otherwise sets `running` and
spawns one render-loop thread. -/
def start_display (st : DisplayState) : DisplayState :=
  if st.running then st
  else
    { st with
      running := true
      display_thread := some st.threads_spawned
      threads_spawned := st.threads_spawned + 1 }

/-- Model of `DisplayManager.stop_display` (`display.py`, lines 43-49):
clears `running`; the `join(timeout=2)` call only waits on the thread and
mutates no field. -/
def stop_display (st : DisplayState) : DisplayState :=
  { st with running := false }

/-- C9: `stop_display` on a non-running display is a no-op (the state is
unchanged), and `start_display` on a running display returns the state
unchanged — in particular `threads_spawned` does not grow, so no second
render loop is spawned and at most one background display task exists. -/
theorem C9_display_start_stop (st : DisplayState) :
    (st.running = false → stop_display st = st)
    ∧ (st.running = true → start_display st = st) := by
  constructor
  · intro h
    unfold stop_display
    rw [← h]
  · intro h
    unfold start_display
    rw [if_pos h]

/-- Witness for C9: a stopped display (fresh defaults) and a running
display (one spawned loop). -/
theorem C9_witness :
    stop_display (DisplayState.mk 1 true false none 0 none 0)
        = DisplayState.mk 1 true false none 0 none 0
    ∧ start_display (DisplayState.mk 1 true true (some 0) 1 none 0)
        = DisplayState.mk 1 true true (some 0) 1 none 0 :=
  ⟨(C9_display_start_stop (DisplayState.mk 1 true false none 0 none 0)).1 rfl,
   (C9_display_start_stop (DisplayState.mk 1 true true (some 0) 1 none 0)).2 rfl⟩

/-- The value found under `classification_predictions` in a raw workflow
payload: `top` / `confidence` are `none` when those keys are absent
(Python `.get` with a default). -/
structure ClassificationPreds where
  top : Option String
  confidence : Option ℚ
deriving Repr, DecidableEq

/-- A raw workflow result dict as received by
`HabitMonitor._process_prediction` (`monitor.py`, lines 179-207):
`nonempty` is the Python truthiness of the dict (`false` for `{}`), and
`classification_predictions = none` models the key being absent or its
value falsy. -/
structure RawResult where
  nonempty : Bool
  classification_predictions : Option ClassificationPreds
deriving Repr, DecidableEq

/-- The `prediction_data` record built by `_process_prediction`
(`monitor.py`, lines 183-186). -/
structure PredictionData where
  top_cls : String
  confidence : ℚ
deriving Repr, DecidableEq

/-- Model of `HabitMonitor._process_prediction` (`monitor.py`,
lines 179-207): normalizes a raw payload to `(habit_detected,
prediction_data)`, degrading to `("unknown", 0.0)` when the expected
sub-structure is absent. -/
def process_prediction (threshold : ℚ) (result : RawResult) :
    Bool × PredictionData :=
  let defaultData : PredictionData := ⟨"unknown", 0⟩
  if result.nonempty then
    match result.classification_predictions with
    | some cp =>
        let pd : PredictionData := ⟨cp.top.getD "unknown", cp.confidence.getD 0⟩
        if pd.top_cls = "chomping" ∧ threshold ≤ pd.confidence then (true, pd)
        else (false, pd)
    | none => (false, defaultData)
  else (false, defaultData)

/-- Model of `get_confidence` (`models.py`, lines 70-86): returns the raw
confidence value with no clamping; an absent structure yields `0.0`. -/
def get_confidence (result : RawResult) : ℚ :=
  match result.classification_predictions with
  | some cp => cp.confidence.getD 0
  | none => 0

/-- The `_on_prediction` data path into the tracker (`monitor.py`,
lines 152-163): normalize the payload, then call
`update_habit_detection(detected, confidence, top_class)`. -/
def on_prediction (st : StatsState) (threshold : ℚ) (result : RawResult)
    (now : ℚ) : StatsState :=
  let r := process_prediction threshold result
  update_habit_detection st r.1 r.2.confidence r.2.top_cls now

/-- C4: for every raw payload whose classification sub-structure is
absent — in particular the empty dict `{}`, whose truthiness is `false`
and which has no `classification_predictions` key — normalization yields
the default record `topClass = "unknown"`, `confidence = 0.0` (and, being
a total function, cannot raise). -/
theorem C4_normalizer_degradation (threshold : ℚ) (result : RawResult)
    (h : result.classification_predictions = none) :
    process_prediction threshold result
      = (false, PredictionData.mk "unknown" 0) := by
  unfold process_prediction
  rw [h]
  split <;> rfl

/-- Witness for C4 at the empty dict `{}` (falsy, no keys) with the
default threshold `0.7`. -/
theorem C4_witness :
    process_prediction (7/10) (RawResult.mk false none)
      = (false, PredictionData.mk "unknown" 0) :=
  C4_normalizer_degradation (7/10) (RawResult.mk false none) rfl

/-- C3 (code bug): nothing in the pipeline clamps confidence.  The raw
payload `{"classification_predictions": {"top": "chomping",
"confidence": 1.7}}` passes `get_confidence` unchanged, and flowing it
through `_process_prediction` and `update_habit_detection` (threshold
`0.7`, tracker just started) stores confidence `1.7 > 1.0` in
`detection_history`, contrary to the claimed clamping to `[0, 1]`. -/
theorem C3_confidence_not_clamped :
    get_confidence (RawResult.mk true
        (some (ClassificationPreds.mk (some "chomping") (some (17/10)))))
      = 17/10
    ∧ ((on_prediction (start_session initStats 0) (7/10)
          (RawResult.mk true
            (some (ClassificationPreds.mk (some "chomping") (some (17/10)))))
          1).detection_history.map DetectionEvent.confidence)
      = [17/10]
    ∧ (1 : ℚ) < 17/10 := by
  refine ⟨rfl, ?_, by norm_num⟩
  have hproc : process_prediction (7/10)
      (RawResult.mk true
        (some (ClassificationPreds.mk (some "chomping") (some (17/10)))))
      = (true, PredictionData.mk "chomping" (17/10)) := by
    norm_num [process_prediction]
  unfold on_prediction
  rw [hproc]
  rfl
